import Mathlib

/-!
Verification development for the TechnoServe Finance & Budget dashboard
(`src/finance.py`): the budget-record lifecycle (Maker / Checker / Approver
workflow over an in-memory table), the KPI table, and the derived metric
computations (Variance, Variance (%), Progress (%)).

The Python source keeps both collections as pandas DataFrames held in
`st.session_state`; rows are looked up by the `id` column via
`df[df['id'] == doc_id].index[0]` (first matching row) and updated in place.
We model each DataFrame as a `List` of records in row order, lookups as
first-match search, and each UI button handler as a pure function from the
store to `Except WfError Store`.  A handler whose guard fails shows a
warning and leaves the session state untouched; in the model this is an
`.error` result, which carries no store, so failure can never mutate.

The source collapses each handler's guard into a single boolean (membership
of the id in a pre-filtered row set); the error value reports which conjunct
of that guard failed, using the error taxonomy of the specification
(ownership failure gives `permissionDenied`, a wrong source status gives
`invalidTransition`, a missing id gives `notFound`).  Ownership is tested
before status, which is the reading consistent with the specification's
transition table.
-/

namespace Finance

/-- Workflow statuses of a budget row.  The `Status` column of
`st.session_state['finance_data']` holds the strings "Draft",
"Pending Approval", "Approved by Checker", "Approved", "Rejected". -/
inductive Status where
  | Draft
  | PendingApproval
  | ApprovedByChecker
  | Approved
  | Rejected
deriving DecidableEq, Repr

/-- Structured error kinds from the specification's error-handling design. -/
inductive WfError where
  | validationError
  | invalidTransition
  | permissionDenied
  | notFound
  | storeUnavailable
deriving DecidableEq, Repr

/-- One row of `st.session_state['finance_data']`.  Monetary amounts are
modelled as rationals; the optional columns `CheckerReviewedBy`,
`CheckerComments`, `ApprovedBy`, `RejectedBy` only appear once the
corresponding button has run, so they are `Option`-valued. -/
structure BudgetRecord where
  id : String
  program : String
  category : String
  budget : ℚ
  actual : ℚ
  status : Status
  lastUpdatedBy : String
  checkerReviewedBy : Option String := none
  checkerComments : Option String := none
  approvedBy : Option String := none
  rejectedBy : Option String := none
deriving DecidableEq, Repr

/-- One row of `st.session_state['kpi_data']`.  The `status` column holds the
free strings "On Track" / "At Risk" set by the save handler. -/
structure KpiRecord where
  id : String
  name : String
  associatedProgram : String
  targetValue : ℚ
  actualValue : ℚ
  unit : String
  status : String
  lastUpdatedBy : String
deriving DecidableEq, Repr

/-- First row whose key matches, mirroring
`df[df['id'] == doc_id].index[0]` on a DataFrame in row order. -/
def findBy {α : Type} (key : α → String) (recId : String) : List α → Option α
  | [] => none
  | r :: rs => if key r = recId then some r else findBy key recId rs

/-- Rewrite the first row whose key matches, mirroring in-place
`df.loc[idx, col] = value` assignments at the first matching index. -/
def updateBy {α : Type} (key : α → String) (recId : String) (f : α → α) :
    List α → List α
  | [] => []
  | r :: rs => if key r = recId then f r :: rs else r :: updateBy key recId f rs

def findRec (recId : String) (s : List BudgetRecord) : Option BudgetRecord :=
  findBy (fun r => r.id) recId s

def updateFirst (recId : String) (f : BudgetRecord → BudgetRecord)
    (s : List BudgetRecord) : List BudgetRecord :=
  updateBy (fun r => r.id) recId f s

/-- Status of the first row with the given id, if any. -/
def statusOf (recId : String) (s : List BudgetRecord) : Option Status :=
  (findRec recId s).map (fun r => r.status)

/-! ### Derived metrics

`finance.py` lines 200-220: `Variance = Actual - Budget`;
`Variance (%) = np.where(Budget != 0, ((Variance / Budget) * 100).round(2), 0.0)`;
`Progress (%) = np.where(target != 0, ((actual / target) * 100).round(2), 0.0)`.
-/

/-- Round to two decimal places, the `.round(2)` display convention used by
the source on the percentage columns. -/
def round2 (q : ℚ) : ℚ := (round (q * 100) : ℚ) / 100

/-- The `Variance` column: `finance_df['Actual'] - finance_df['Budget']`. -/
def varianceCalc (budget actual : ℚ) : ℚ := actual - budget

/-- The `Variance (%)` column: guarded by `Budget != 0`, rounded to two
decimals, `0.0` when the budget is zero. -/
def variancePercent (budget actual : ℚ) : ℚ :=
  if budget ≠ 0 then round2 (varianceCalc budget actual / budget * 100) else 0

/-- Variance-percent formula as worded in the specification: variance over
budget times 100 when the budget is nonzero, else 0. -/
def variancePercentSpec (budget actual : ℚ) : ℚ :=
  if budget = 0 then 0 else round2 ((actual - budget) / budget * 100)

/-- The `Progress (%)` column of the KPI table: guarded by `target != 0`,
rounded to two decimals, `0.0` when the target is zero.  This raw value is
what the data listings display. -/
def kpiProgress (target actual : ℚ) : ℚ :=
  if target ≠ 0 then round2 (actual / target * 100) else 0

/-- KPI-progress formula as worded in the specification. -/
def kpiProgressSpec (target actual : ℚ) : ℚ :=
  if target = 0 then 0 else round2 (actual / target * 100)

/-- Progress of a KPI row, reading only its target and actual columns, as the
frame computation on lines 216-220 does. -/
def kpiProgressOf (k : KpiRecord) : ℚ := kpiProgress k.targetValue k.actualValue

/-- The fraction handed to the progress bar on line 298:
`min(float(row['Progress (%)']) / 100, 1.0)`.  The clamp exists only here,
at display time; the stored `Progress (%)` column stays unclamped. -/
def displayProgress (target actual : ℚ) : ℚ :=
  min (kpiProgress target actual / 100) 1

/-! ### Workflow operations (budget)

Each definition embeds one button handler of `finance.py`, together with the
pre-filtered row set its id widget draws from; the role requirement of a
handler is structural in the source (the handler only exists inside its
role's `elif` branch), so each function stands for an invocation by an actor
holding that role. -/

/-- Comment written by the send-back handler, line 483 of the source:
`st.session_state['finance_data'].loc[idx, 'CheckerComments'] = "Needs revision by Maker"`. -/
def sendbackComment : String := "Needs revision by Maker"

def onTrack : String := "On Track"

def atRisk : String := "At Risk"

/-- `submit_budget_button` (lines 348-365): the selectbox offers only rows of
`maker_submittable_entries`, i.e. `LastUpdatedBy == user` and status Draft or
Rejected; the handler then sets the first matching row's status to
"Pending Approval". -/
def submit_budget (actor recId : String) (s : List BudgetRecord) :
    Except WfError (List BudgetRecord) :=
  match findRec recId s with
  | none => .error .notFound
  | some r =>
    if r.lastUpdatedBy ≠ actor then .error .permissionDenied
    else if r.status = Status.Draft ∨ r.status = Status.Rejected then
      .ok (updateFirst recId (fun x => { x with status := Status.PendingApproval }) s)
    else .error .invalidTransition

/-- `maker_delete_button` (lines 444-449): the guard requires the id to be in
`maker_entries` (`LastUpdatedBy == user` and status Draft, Pending Approval
or Rejected); `delete_budget` then drops every row with that id. -/
def maker_delete (actor recId : String) (s : List BudgetRecord) :
    Except WfError (List BudgetRecord) :=
  match findRec recId s with
  | none => .error .notFound
  | some r =>
    if r.lastUpdatedBy ≠ actor then .error .permissionDenied
    else if r.status = Status.Draft ∨ r.status = Status.PendingApproval ∨
        r.status = Status.Rejected then
      .ok (s.filter (fun x => decide (x.id ≠ recId)))
    else .error .invalidTransition

/-- `checker_approve_button` (lines 469-477): the guard requires the id among
`pending_entries` (status "Pending Approval"); the handler sets status
"Approved by Checker" and `CheckerReviewedBy` to the acting user. -/
def checker_approve (actor recId : String) (s : List BudgetRecord) :
    Except WfError (List BudgetRecord) :=
  match findRec recId s with
  | none => .error .notFound
  | some r =>
    if r.status = Status.PendingApproval then
      .ok (updateFirst recId (fun x =>
        { x with status := Status.ApprovedByChecker,
                 checkerReviewedBy := some actor }) s)
    else .error .invalidTransition

/-- `checker_sendback_button` (lines 479-488): same guard as the approve
button; sets status "Draft", `CheckerComments` to the fixed string and
`CheckerReviewedBy` to the acting user. -/
def checker_sendback (actor recId : String) (s : List BudgetRecord) :
    Except WfError (List BudgetRecord) :=
  match findRec recId s with
  | none => .error .notFound
  | some r =>
    if r.status = Status.PendingApproval then
      .ok (updateFirst recId (fun x =>
        { x with status := Status.Draft,
                 checkerComments := some sendbackComment,
                 checkerReviewedBy := some actor }) s)
    else .error .invalidTransition

/-- `approver_final_approve_button` (lines 511-519): the guard requires the
id among `entries_for_approval` (status "Pending Approval" or
"Approved by Checker"); the handler sets status "Approved" and `ApprovedBy`
to the acting user. -/
def approver_final_approve (actor recId : String) (s : List BudgetRecord) :
    Except WfError (List BudgetRecord) :=
  match findRec recId s with
  | none => .error .notFound
  | some r =>
    if r.status = Status.PendingApproval ∨ r.status = Status.ApprovedByChecker then
      .ok (updateFirst recId (fun x =>
        { x with status := Status.Approved, approvedBy := some actor }) s)
    else .error .invalidTransition

/-! ### Store write operations -/

/-- The per-row fields supplied by the budget entry form (lines 334-341):
`Program`, `Category`, `Budget`, `Actual`, `Status`, `LastUpdatedBy`. -/
structure EntryData where
  program : String
  category : String
  budget : ℚ
  actual : ℚ
  status : Status
  lastUpdatedBy : String
deriving DecidableEq, Repr

/-- The per-key update loop `for key, value in data.items():
current_df.loc[idx, key] = value` applied to an existing row. -/
def applyEntryData (d : EntryData) (r : BudgetRecord) : BudgetRecord :=
  { r with program := d.program, category := d.category, budget := d.budget,
           actual := d.actual, status := d.status,
           lastUpdatedBy := d.lastUpdatedBy }

/-- `add_or_update_budget` (lines 107-128).  With a `doc_id`: if present, the
supplied fields overwrite the first matching row; if absent, `st.error` fires
and the frame is untouched (`notFound`).  With no `doc_id`: a fresh
uuid (modelled by the caller-supplied `freshId`) keys a new row appended via
`pd.concat`; the new row carries only the form fields, so its optional review
columns are empty. -/
def add_or_update_budget (docId : Option String) (d : EntryData)
    (freshId : String) (s : List BudgetRecord) :
    Except WfError (List BudgetRecord) :=
  match docId with
  | some i =>
    if (findRec i s).isSome then
      .ok (updateFirst i (applyEntryData d) s)
    else .error .notFound
  | none =>
    .ok (s ++ [{ id := freshId, program := d.program, category := d.category,
                 budget := d.budget, actual := d.actual, status := d.status,
                 lastUpdatedBy := d.lastUpdatedBy }])

/-- The KPI save handler (`kpi_entry_form`, lines 398-411) followed by
`add_or_update_kpi` (lines 146-165).  Empty name, program or unit stops at
the warning; otherwise the saved row's `status` is computed by the handler:
`"On Track" if actual_value >= target_value else "At Risk"`. -/
def kpi_entry_save (actor nm pg : String) (target actual : ℚ) (un : String)
    (docId : Option String) (freshId : String) (s : List KpiRecord) :
    Except WfError (List KpiRecord) :=
  if nm = "" ∨ pg = "" ∨ un = "" then .error .validationError
  else
    let st : String := if target ≤ actual then onTrack else atRisk
    match docId with
    | some i =>
      if (findBy (fun k => k.id) i s).isSome then
        .ok (updateBy (fun k => k.id) i (fun k =>
          { k with name := nm, associatedProgram := pg, targetValue := target,
                   actualValue := actual, unit := un, status := st,
                   lastUpdatedBy := actor }) s)
      else .error .notFound
    | none =>
      .ok (s ++ [{ id := freshId, name := nm, associatedProgram := pg,
                   targetValue := target, actualValue := actual, unit := un,
                   status := st, lastUpdatedBy := actor }])

/-! ### Store lemmas -/

theorem findBy_updateBy {α : Type} (key : α → String) (recId : String)
    (f : α → α) (hf : ∀ x, key (f x) = key x) (s : List α) :
    findBy key recId (updateBy key recId f s) = (findBy key recId s).map f := by
  induction s with
  | nil => rfl
  | cons r rs ih =>
    by_cases h : key r = recId
    · simp [updateBy, findBy, h, hf r]
    · simp [updateBy, findBy, h, ih]

theorem findBy_append_of_none {α : Type} (key : α → String) (recId : String)
    (s t : List α) (h : findBy key recId s = none) :
    findBy key recId (s ++ t) = findBy key recId t := by
  induction s with
  | nil => rfl
  | cons r rs ih =>
    by_cases hk : key r = recId
    · simp [findBy, hk] at h
    · simp only [findBy, hk, if_false, List.cons_append] at h ⊢
      · exact ih h

theorem findRec_updateFirst (recId : String) (f : BudgetRecord → BudgetRecord)
    (hf : ∀ x, (f x).id = x.id) (s : List BudgetRecord) :
    findRec recId (updateFirst recId f s) = (findRec recId s).map f := by
  unfold findRec updateFirst
  exact findBy_updateBy (fun r => r.id) recId f hf s

/-! ### Success-shape lemmas for the handlers -/

theorem submit_budget_ok (actor recId : String) (s : List BudgetRecord)
    (r : BudgetRecord) (hfind : findRec recId s = some r)
    (hown : r.lastUpdatedBy = actor)
    (hst : r.status = Status.Draft ∨ r.status = Status.Rejected) :
    submit_budget actor recId s
      = .ok (updateFirst recId
          (fun x => { x with status := Status.PendingApproval }) s) ∧
    findRec recId (updateFirst recId
        (fun x => { x with status := Status.PendingApproval }) s)
      = some { r with status := Status.PendingApproval } := by
  constructor
  · simp [submit_budget, hfind, hown, hst]
  · rw [findRec_updateFirst recId
      (fun x => { x with status := Status.PendingApproval }) (fun x => rfl) s,
      hfind]
    rfl

theorem checker_approve_ok (actor recId : String) (s : List BudgetRecord)
    (r : BudgetRecord) (hfind : findRec recId s = some r)
    (hst : r.status = Status.PendingApproval) :
    checker_approve actor recId s
      = .ok (updateFirst recId (fun x =>
          { x with status := Status.ApprovedByChecker,
                   checkerReviewedBy := some actor }) s) ∧
    findRec recId (updateFirst recId (fun x =>
        { x with status := Status.ApprovedByChecker,
                 checkerReviewedBy := some actor }) s)
      = some { r with status := Status.ApprovedByChecker,
                      checkerReviewedBy := some actor } := by
  constructor
  · simp [checker_approve, hfind, hst]
  · rw [findRec_updateFirst recId
      (fun x => { x with status := Status.ApprovedByChecker,
                         checkerReviewedBy := some actor }) (fun x => rfl) s,
      hfind]
    rfl

theorem checker_sendback_ok (actor recId : String) (s : List BudgetRecord)
    (r : BudgetRecord) (hfind : findRec recId s = some r)
    (hst : r.status = Status.PendingApproval) :
    checker_sendback actor recId s
      = .ok (updateFirst recId (fun x =>
          { x with status := Status.Draft,
                   checkerComments := some sendbackComment,
                   checkerReviewedBy := some actor }) s) ∧
    findRec recId (updateFirst recId (fun x =>
        { x with status := Status.Draft,
                 checkerComments := some sendbackComment,
                 checkerReviewedBy := some actor }) s)
      = some { r with status := Status.Draft,
                      checkerComments := some sendbackComment,
                      checkerReviewedBy := some actor } := by
  constructor
  · simp [checker_sendback, hfind, hst]
  · rw [findRec_updateFirst recId
      (fun x => { x with status := Status.Draft,
                         checkerComments := some sendbackComment,
                         checkerReviewedBy := some actor }) (fun x => rfl) s,
      hfind]
    rfl

theorem approver_final_approve_ok (actor recId : String)
    (s : List BudgetRecord) (r : BudgetRecord)
    (hfind : findRec recId s = some r)
    (hst : r.status = Status.PendingApproval ∨
      r.status = Status.ApprovedByChecker) :
    approver_final_approve actor recId s
      = .ok (updateFirst recId (fun x =>
          { x with status := Status.Approved, approvedBy := some actor }) s) ∧
    findRec recId (updateFirst recId (fun x =>
        { x with status := Status.Approved, approvedBy := some actor }) s)
      = some { r with status := Status.Approved,
                      approvedBy := some actor } := by
  constructor
  · simp [approver_final_approve, hfind, hst]
  · rw [findRec_updateFirst recId
      (fun x => { x with status := Status.Approved,
                         approvedBy := some actor }) (fun x => rfl) s,
      hfind]
    rfl

/-! ### Metric lemmas -/

theorem round2_nonneg (q : ℚ) (h : 0 ≤ q) : 0 ≤ round2 q := by
  have h1 : (0 : ℤ) ≤ round (q * 100) := by
    rw [round_eq]
    refine Int.le_floor.mpr ?_
    push_cast
    linarith
  unfold round2
  exact div_nonneg (by exact_mod_cast h1) (by norm_num)

theorem kpiProgress_nonneg (t a : ℚ) (ht : 0 ≤ t) (ha : 0 ≤ a) :
    0 ≤ kpiProgress t a := by
  unfold kpiProgress
  split
  · exact round2_nonneg _ (mul_nonneg (div_nonneg ha ht) (by norm_num))
  · exact le_refl 0

/-- Claim C4: the `Variance (%)` column equals
`(actual - budget) / budget * 100`, rounded to the two-decimal display
convention, whenever the budget is nonzero, and equals `0` when the budget is
zero; being a total function of the two rationals, the computation never
fails. -/
theorem variancePercent_matches_spec :
    ∀ b a : ℚ, variancePercent b a = variancePercentSpec b a ∧
      variancePercent 0 a = 0 := by
  intro b a
  constructor
  · rcases eq_or_ne b 0 with hb | hb
    · simp [variancePercent, variancePercentSpec, hb]
    · simp [variancePercent, variancePercentSpec, varianceCalc, hb]
  · simp [variancePercent]

/-- Claim C5: the `Variance` column is exactly `actual - budget`, with no
rounding; on the record with budget 25000 and actual 28000 it yields a
variance of 3000 and a variance percentage of 12. -/
theorem variance_exact_and_example :
    ∀ b a : ℚ, varianceCalc b a = a - b ∧
      varianceCalc 25000 28000 = 3000 ∧ variancePercent 25000 28000 = 12 := by
  refine fun b a => ⟨rfl, by norm_num [varianceCalc], ?_⟩
  norm_num [variancePercent, varianceCalc, round2, round_eq]

/-- Claim C6: the `Progress (%)` column equals
`actual / target * 100` (two-decimal convention) when the target is nonzero
and `0` otherwise; for the non-negative values the forms admit, the fraction
handed to the progress bar is the `[0, 100]`-clamp of that percentage
(scaled to `[0, 1]`), applied only at display time, while the stored column
keeps the unclamped raw value — e.g. target 50, actual 100 stores 200 yet
displays a full bar. -/
theorem kpiProgress_spec_and_clamp (t a : ℚ) (ht : 0 ≤ t) (ha : 0 ≤ a) :
    kpiProgress t a = kpiProgressSpec t a ∧
    displayProgress t a = max 0 (min (kpiProgress t a / 100) 1) ∧
    kpiProgress 50 100 = 200 ∧ displayProgress 50 100 = 1 := by
  have h200 : kpiProgress 50 100 = 200 := by
    norm_num [kpiProgress, round2, round_eq]
  refine ⟨?_, ?_, h200, ?_⟩
  · rcases eq_or_ne t 0 with h0 | h0
    · simp [kpiProgress, kpiProgressSpec, h0]
    · simp [kpiProgress, kpiProgressSpec, h0]
  · have hnn : 0 ≤ min (kpiProgress t a / 100) 1 :=
      le_min (div_nonneg (kpiProgress_nonneg t a ht ha) (by norm_num))
        zero_le_one
    exact (max_eq_right hnn).symm
  · show min (kpiProgress 50 100 / 100) 1 = 1
    rw [h200]
    norm_num

/-- Claim C6 witness at the spec's example KPI (target 100, actual 90). -/
theorem kpiProgress_spec_and_clamp_witness :
    kpiProgress 100 90 = kpiProgressSpec 100 90 ∧
    displayProgress 100 90 = max 0 (min (kpiProgress 100 90 / 100) 1) ∧
    kpiProgress 50 100 = 200 ∧ displayProgress 50 100 = 1 :=
  kpiProgress_spec_and_clamp 100 90 (by norm_num) (by norm_num)

/-! ### Concrete fixtures -/

def mA : String := "makerA"

def mB : String := "makerB"

def ckA : String := "checker1"

def apA : String := "approver1"

def bid1 : String := "b1"

def missId : String := "missing"

def fresh1 : String := "fresh1"

/-- A draft budget row owned by Maker A, using the spec's example amounts. -/
def r0 : BudgetRecord :=
  { id := "b1", program := "Health", category := "Travel", budget := 25000,
    actual := 28000, status := Status.Draft, lastUpdatedBy := "makerA" }

/-- The same row after submission, awaiting checker review. -/
def rP : BudgetRecord := { r0 with status := Status.PendingApproval }

/-- The pending row after a checker send-back. -/
def rSent : BudgetRecord :=
  { rP with status := Status.Draft, checkerComments := some sendbackComment,
            checkerReviewedBy := some ckA }

/-! ### Workflow claims -/

/-- Claim C1: from a Draft record, submit (by its Maker), checkerApprove and
finalApprove drive the status through Pending Approval, Approved by Checker
and Approved in that order, and a further submit attempt on the Approved
record fails with `invalidTransition`, the status staying Approved. -/
theorem submit_pipeline (s : List BudgetRecord) (m c a recId : String)
    (r : BudgetRecord) (hfind : findRec recId s = some r)
    (hown : r.lastUpdatedBy = m) (hst : r.status = Status.Draft) :
    ∃ s1 s2 s3,
      submit_budget m recId s = .ok s1 ∧
      statusOf recId s1 = some Status.PendingApproval ∧
      checker_approve c recId s1 = .ok s2 ∧
      statusOf recId s2 = some Status.ApprovedByChecker ∧
      approver_final_approve a recId s2 = .ok s3 ∧
      statusOf recId s3 = some Status.Approved ∧
      submit_budget m recId s3 = .error WfError.invalidTransition := by
  obtain ⟨h1, hf1⟩ := submit_budget_ok m recId s r hfind hown (Or.inl hst)
  obtain ⟨h2, hf2⟩ := checker_approve_ok c recId _ _ hf1 rfl
  obtain ⟨h3, hf3⟩ := approver_final_approve_ok a recId _ _ hf2 (Or.inr rfl)
  refine ⟨_, _, _, h1, ?_, h2, ?_, h3, ?_, ?_⟩
  · simp [statusOf, hf1]
  · simp [statusOf, hf2]
  · simp [statusOf, hf3]
  · simp [submit_budget, hf3, hown]

/-- Claim C1 witness: the pipeline run on the singleton store holding the
draft row `r0`. -/
theorem submit_pipeline_witness :
    ∃ s1 s2 s3,
      submit_budget mA bid1 [r0] = .ok s1 ∧
      statusOf bid1 s1 = some Status.PendingApproval ∧
      checker_approve ckA bid1 s1 = .ok s2 ∧
      statusOf bid1 s2 = some Status.ApprovedByChecker ∧
      approver_final_approve apA bid1 s2 = .ok s3 ∧
      statusOf bid1 s3 = some Status.Approved ∧
      submit_budget mA bid1 s3 = .error WfError.invalidTransition :=
  submit_pipeline [r0] mA ckA apA bid1 r0 rfl rfl rfl

/-- Claim C2: on a record whose `LastUpdatedBy` is Maker A, both delete and
submit invoked by a different Maker B fail with `permissionDenied`; an
`.error` result carries no store, so neither the record nor any other row is
modified. -/
theorem maker_ownership_guard (s : List BudgetRecord) (a b recId : String)
    (r : BudgetRecord) (hfind : findRec recId s = some r)
    (hown : r.lastUpdatedBy = a) (hne : b ≠ a) :
    maker_delete b recId s = .error WfError.permissionDenied ∧
    submit_budget b recId s = .error WfError.permissionDenied := by
  have hab : r.lastUpdatedBy ≠ b := by
    rw [hown]
    exact fun h => hne h.symm
  constructor
  · simp [maker_delete, hfind, hab]
  · simp [submit_budget, hfind, hab]

/-- Claim C2 witness: Maker B can neither delete nor submit Maker A's draft
row. -/
theorem maker_ownership_guard_witness :
    maker_delete mB bid1 [r0] = .error WfError.permissionDenied ∧
    submit_budget mB bid1 [r0] = .error WfError.permissionDenied :=
  maker_ownership_guard [r0] mA mB bid1 r0 rfl rfl (by decide)

/-- Claim C3: a checker send-back on a Pending Approval record moves it to
Draft, records the comment and the reviewing checker, and leaves program,
category, budget and actual exactly as they were. -/
theorem sendback_frame (s : List BudgetRecord) (c recId : String)
    (r : BudgetRecord) (hfind : findRec recId s = some r)
    (hst : r.status = Status.PendingApproval) :
    ∃ s2 r2, checker_sendback c recId s = .ok s2 ∧
      findRec recId s2 = some r2 ∧
      r2.status = Status.Draft ∧
      r2.checkerComments = some sendbackComment ∧
      r2.checkerReviewedBy = some c ∧
      r2.program = r.program ∧ r2.category = r.category ∧
      r2.budget = r.budget ∧ r2.actual = r.actual := by
  obtain ⟨h1, hf1⟩ := checker_sendback_ok c recId s r hfind hst
  exact ⟨_, _, h1, hf1, rfl, rfl, rfl, rfl, rfl, rfl, rfl⟩

/-- Claim C3 witness: send-back on the pending row `rP`. -/
theorem sendback_frame_witness :
    ∃ s2 r2, checker_sendback ckA bid1 [rP] = .ok s2 ∧
      findRec bid1 s2 = some r2 ∧
      r2.status = Status.Draft ∧
      r2.checkerComments = some sendbackComment ∧
      r2.checkerReviewedBy = some ckA ∧
      r2.program = rP.program ∧ r2.category = rP.category ∧
      r2.budget = rP.budget ∧ r2.actual = rP.actual :=
  sendback_frame [rP] ckA bid1 rP rfl rfl

/-- Claim C10: whenever a checker send-back succeeds, the stored
`CheckerComments` value is the fixed string "Needs revision by Maker",
whichever checker acted; the handler hard-codes the text and takes no
caller-supplied comment. -/
theorem sendback_comment_fixed (c recId : String) (s s2 : List BudgetRecord)
    (h : checker_sendback c recId s = .ok s2) :
    (findRec recId s2).map (fun r => r.checkerComments)
      = some (some sendbackComment) := by
  cases hfind : findRec recId s with
  | none =>
    simp only [checker_sendback, hfind] at h
    exact absurd h (by simp)
  | some r =>
    simp only [checker_sendback, hfind] at h
    by_cases hst : r.status = Status.PendingApproval
    · rw [if_pos hst] at h
      simp only [Except.ok.injEq] at h
      subst h
      rw [findRec_updateFirst recId
        (fun x => { x with status := Status.Draft,
                           checkerComments := some sendbackComment,
                           checkerReviewedBy := some c }) (fun x => rfl) s,
        hfind]
      rfl
    · rw [if_neg hst] at h
      exact absurd h (by simp)

/-- Claim C10 witness: the send-back on `rP` stores exactly the fixed
comment. -/
theorem sendback_comment_fixed_witness :
    (findRec bid1 [rSent]).map (fun r => r.checkerComments)
      = some (some sendbackComment) :=
  sendback_comment_fixed ckA bid1 [rP] [rSent] rfl

/-- Sequentialized double approval: once a checker approval has gone
through, a second approval of the same id observes the post-transition
status and fails with `invalidTransition`.  (True simultaneity is outside
this model: the source is a single-threaded script whose per-session state
is never shared between two running handlers.) -/
theorem checker_approve_twice_sequential (c1 c2 recId : String)
    (s : List BudgetRecord) (r : BudgetRecord)
    (hfind : findRec recId s = some r)
    (hst : r.status = Status.PendingApproval) :
    ∃ s1, checker_approve c1 recId s = .ok s1 ∧
      checker_approve c2 recId s1 = .error WfError.invalidTransition := by
  obtain ⟨h1, hf1⟩ := checker_approve_ok c1 recId s r hfind hst
  exact ⟨_, h1, by simp [checker_approve, hf1]⟩

/-! ### KPI status claims -/

def kid1 : String := "k1"

def kNm : String := "KPI"

def kPg : String := "Health"

def kUn : String := "%"

/-- A KPI row whose status an operator had set to "On Track". -/
def k0 : KpiRecord :=
  { id := "k1", name := "KPI", associatedProgram := "Health",
    targetValue := 100, actualValue := 95, unit := "%",
    status := "On Track", lastUpdatedBy := "makerA" }

/-- The row the save handler produces from `k0` for target 100, actual 90. -/
def k0saved : KpiRecord :=
  { k0 with targetValue := 100, actualValue := 90, status := atRisk,
            lastUpdatedBy := mA }

/-- Claim C7 counterexample: saving the KPI entry with target 100 and actual
90 overwrites the operator-set "On Track" status with "At Risk", computed by
the handler from `actual_value >= target_value` (line 408 of the source), so
the saved status is not operator-set. -/
theorem kpi_save_status_counterexample :
    k0.status = onTrack ∧ onTrack ≠ atRisk ∧
    kpi_entry_save mA kNm kPg 100 90 kUn (some kid1) fresh1 [k0]
      = .ok [k0saved] ∧
    kpiProgress 100 90 = 90 := by
  refine ⟨rfl, by decide, rfl, ?_⟩
  norm_num [kpiProgress, round2, round_eq]

/-- Claim C7 amended: computing Progress (%) reads only the target and
actual columns and so leaves status untouched; the save handler, however,
derives the stored status from the comparison — every successful save over
an existing id stores "On Track" when actual ≥ target and "At Risk"
otherwise, overwriting any operator-set value. -/
theorem kpi_save_status_amended (actor nm pg un i f2 : String)
    (target actual : ℚ) (s s2 : List KpiRecord)
    (h : kpi_entry_save actor nm pg target actual un (some i) f2 s = .ok s2)
    (k : KpiRecord) (st : String) :
    kpiProgressOf { k with status := st } = kpiProgressOf k ∧
    (findBy (fun x => x.id) i s2).map (fun x => x.status)
      = some (if target ≤ actual then onTrack else atRisk) := by
  refine ⟨rfl, ?_⟩
  by_cases hval : nm = "" ∨ pg = "" ∨ un = ""
  · simp only [kpi_entry_save, if_pos hval] at h
    exact absurd h (by simp)
  · simp only [kpi_entry_save, if_neg hval] at h
    by_cases hex : (findBy (fun k => k.id) i s).isSome
    · rw [if_pos hex] at h
      simp only [Except.ok.injEq] at h
      subst h
      rw [findBy_updateBy (fun x => x.id) i
        (fun k => { k with name := nm, associatedProgram := pg,
                           targetValue := target, actualValue := actual,
                           unit := un,
                           status := if target ≤ actual then onTrack else atRisk,
                           lastUpdatedBy := actor }) (fun x => rfl) s]
      obtain ⟨k2, hk⟩ := Option.isSome_iff_exists.mp hex
      rw [hk]
      rfl
    · rw [if_neg hex] at h
      exact absurd h (by simp)

/-- Claim C7 amended witness: the save over `k0` at target 100, actual 90. -/
theorem kpi_save_status_amended_witness :
    kpiProgressOf { k0 with status := atRisk } = kpiProgressOf k0 ∧
    (findBy (fun x => x.id) kid1 [k0saved]).map (fun x => x.status)
      = some (if (100 : ℚ) ≤ 90 then onTrack else atRisk) :=
  kpi_save_status_amended mA kNm kPg kUn kid1 fresh1 100 90 [k0] [k0saved]
    rfl k0 atRisk

/-! ### Upsert claims -/

/-- Entry-form data used by the put fixtures. -/
def d0 : EntryData :=
  { program := "Health", category := "Travel", budget := 26000,
    actual := 28000, status := Status.Draft, lastUpdatedBy := "makerA" }

/-- Claim C8 counterexample: `add_or_update_budget` is not an upsert keyed by
id — given an explicit id absent from the table it fails with `notFound`
(the source's `st.error(... not found for update)` branch) instead of
creating the record. -/
theorem put_absent_id_counterexample :
    add_or_update_budget (some missId) d0 fresh1 [r0]
      = .error WfError.notFound := rfl

/-- Claim C8 amended: with an existing explicit id the supplied fields
overwrite that record; with no id a new record is appended under a fresh
generated id; with an explicit id that is absent the call fails with
`notFound` and no record is created. -/
theorem add_or_update_characterization (d : EntryData) (freshId i : String)
    (s : List BudgetRecord) :
    (∀ r, findRec i s = some r →
      add_or_update_budget (some i) d freshId s
        = .ok (updateFirst i (applyEntryData d) s) ∧
      findRec i (updateFirst i (applyEntryData d) s)
        = some (applyEntryData d r)) ∧
    (findRec i s = none →
      add_or_update_budget (some i) d freshId s = .error WfError.notFound) ∧
    (findRec freshId s = none →
      ∃ s2, add_or_update_budget none d freshId s = .ok s2 ∧
        ∃ r2, findRec freshId s2 = some r2 ∧ r2.id = freshId ∧
          r2.program = d.program ∧ r2.category = d.category ∧
          r2.budget = d.budget ∧ r2.actual = d.actual ∧
          r2.status = d.status ∧ r2.lastUpdatedBy = d.lastUpdatedBy) := by
  refine ⟨?_, ?_, ?_⟩
  · intro r hr
    constructor
    · simp [add_or_update_budget, hr]
    · rw [findRec_updateFirst i (applyEntryData d) (fun x => rfl) s, hr]
      rfl
  · intro h0
    simp [add_or_update_budget, h0]
  · intro h0
    refine ⟨_, rfl, ?_⟩
    have hnew : findRec freshId
        (s ++ [{ id := freshId, program := d.program, category := d.category,
                 budget := d.budget, actual := d.actual, status := d.status,
                 lastUpdatedBy := d.lastUpdatedBy }])
        = some { id := freshId, program := d.program, category := d.category,
                 budget := d.budget, actual := d.actual, status := d.status,
                 lastUpdatedBy := d.lastUpdatedBy } := by
      unfold findRec at h0 ⊢
      rw [findBy_append_of_none _ _ _ _ h0]
      simp [findBy]
    exact ⟨_, hnew, rfl, rfl, rfl, rfl, rfl, rfl, rfl⟩

/-- Claim C8 amended witness: updating the existing id succeeds, the absent
id fails with `notFound`. -/
theorem add_or_update_characterization_witness :
    (add_or_update_budget (some bid1) d0 fresh1 [r0]
        = .ok (updateFirst bid1 (applyEntryData d0) [r0]) ∧
      findRec bid1 (updateFirst bid1 (applyEntryData d0) [r0])
        = some (applyEntryData d0 r0)) ∧
    add_or_update_budget (some missId) d0 fresh1 [r0]
      = .error WfError.notFound := by
  refine ⟨(add_or_update_characterization d0 fresh1 bid1 [r0]).1 r0 rfl, ?_⟩
  exact (add_or_update_characterization d0 fresh1 missId [r0]).2.1 rfl

end Finance
